import Mathlib

/-!
Verification of the research-assistant repository (SvelteKit frontend plus the
specified orchestration core).  The frontend helpers (`api.ts`,
`landingHelpers.ts`, the prompt-builder page) are embedded directly from the
TypeScript source.  The orchestration core (Composer, Scorer, Router, Job
lifecycle, Result Cache) is not present in the repository's source tree; those
components are modelled from the specification, as marked on each definition.
-/

deriving instance DecidableEq for Except

namespace Research

/-! ## Data model shared between the frontend source files (`types.ts`) -/

/-- Task types, from `types.ts` (`TaskType`). -/
inductive TaskType
  | short_summary
  | long_summary
  | research_summary
  | math_proof
  | prompt_draft
deriving DecidableEq, Repr

/-- Output formats offered for math-proof generation, from `landingHelpers.ts`
(`type MathProofFormat = "pdf" | "tex"`). -/
inductive MathProofFormat
  | pdf
  | tex
deriving DecidableEq, Repr

/-- The wire value of a `MathProofFormat`. -/
def MathProofFormat.toStr : MathProofFormat → String
  | .pdf => "pdf"
  | .tex => "tex"

/-- Request body of `POST /api/generate`, from `types.ts` (`GenerateRequest`).
Optional JSON fields are `Option`s; `none` means the field is absent from the
serialized payload (JSON.stringify drops `undefined`). -/
structure GenerateRequest where
  document_id : Nat
  task_type : TaskType
  output_format : Option String
  extra_instructions : Option String
deriving DecidableEq, Repr

/-- A caller-supplied tag row, from `types.ts` (`TagIn`). -/
structure TagIn where
  name : String
  value : String
deriving DecidableEq, Repr

/-- Request body of `POST /api/prompt-builder`, from `types.ts`
(`PromptBuilderRequest`). -/
structure PromptBuilderRequest where
  tags : List TagIn
  pattern_names : List String
deriving DecidableEq, Repr

/-- Response body of `POST /api/prompt-builder`, from `types.ts`
(`PromptBuilderResponse`).  `download_url` is nullable. -/
structure PromptBuilderResponse where
  prompt_text : String
  score : ℚ
  accepted : Bool
  download_url : Option String
deriving DecidableEq, Repr

/-- One related-article record, from `types.ts` (`RelatedArticle`). -/
structure RelatedArticle where
  field : String
  title : String
  link : String
  authors_info : String
deriving DecidableEq, Repr

/-- Response of `GET /api/related`, from `types.ts`
(`RelatedArticlesResponse`). -/
structure RelatedArticlesResponse where
  query : String
  articles : List RelatedArticle
deriving DecidableEq, Repr

/-! ## `landingHelpers.ts` : `generateForDocument` -/

/-- Embeds `generateForDocument` from `landingHelpers.ts`: it builds the
`GenerateRequest` passed to `apiGenerate`.  The source sets
`output_format: task === "math_proof" ? (outputFormat ?? "pdf") : undefined`
and never sets `extra_instructions`. -/
def generateForDocument (documentId : Nat) (task : TaskType)
    (outputFormat : Option MathProofFormat) : GenerateRequest :=
  { document_id := documentId
    task_type := task
    output_format :=
      if task = .math_proof then some (outputFormat.getD .pdf).toStr else none
    extra_instructions := none }

/-! ## `api.ts` : `apiPromptBuilder` and `apiRelated` -/

/-- Outcome of the single `fetch` performed by `apiPromptBuilder`, as the
source observes it: the `ok` flag, the parsed JSON body (used only when `ok`),
and the result of `res.text()` (`none` when reading the body rejects). -/
structure PromptFetchResult where
  ok : Bool
  json : PromptBuilderResponse
  bodyText : Option String
deriving DecidableEq, Repr

/-- The fallback error message hard-coded in `apiPromptBuilder`. -/
def promptBuilderFallbackMsg : String := "Prompt builder failed"

/-- Embeds `apiPromptBuilder` from `api.ts`: one fetch; on `ok` the parsed
JSON is returned; otherwise the response body text is read
(`.catch(() => "Prompt builder failed")`) and thrown, with
`msg || "Prompt builder failed"` substituting the fallback for an empty
string. -/
def apiPromptBuilder (res : PromptFetchResult) :
    Except String PromptBuilderResponse :=
  if res.ok then
    .ok res.json
  else
    let msg := res.bodyText.getD promptBuilderFallbackMsg
    .error (if msg = "" then promptBuilderFallbackMsg else msg)

/-- Outcome of the `fetch` performed by `apiRelated`. -/
structure RelatedFetchResult where
  ok : Bool
  json : RelatedArticlesResponse
deriving DecidableEq, Repr

/-- Embeds `apiRelated` from `api.ts`: throws "Related articles fetch failed"
when the response is not ok, otherwise returns the parsed body. -/
def apiRelated (res : RelatedFetchResult) :
    Except String RelatedArticlesResponse :=
  if res.ok then .ok res.json else .error "Related articles fetch failed"

/-! ## Landing page (`routes/+page.svelte`) : `loadRelated` -/

/-- The slice of the landing page's component state touched by
`loadRelated`. -/
structure LandingState where
  related : Option RelatedArticlesResponse
  relatedLoading : Bool
deriving DecidableEq, Repr

/-- Embeds `loadRelated` from `routes/+page.svelte`: it awaits the fetch
inside `try`/`catch`/`finally`; on success it stores the response, on failure
it only logs (the previous `related` value is left in place), and in both
cases `relatedLoading` ends up `false`.  It never rethrows, so the owning
operation (`upload` / `handleGenerate`) is unaffected by the failure. -/
def loadRelated (fetchResult : Except String RelatedArticlesResponse)
    (st : LandingState) : LandingState :=
  match fetchResult with
  | .ok r => { st with related := some r, relatedLoading := false }
  | .error _ => { st with relatedLoading := false }

/-! ## Prompt-builder page (`routes/prompt/+page.svelte`) : `handleGenerate` -/

/-- JavaScript `String.prototype.trim`: strip leading and trailing whitespace
(structural over the character list, so that it evaluates). -/
def strTrim (s : String) : String :=
  ⟨((s.data.dropWhile Char.isWhitespace).reverse.dropWhile
      Char.isWhitespace).reverse⟩

/-- The tag-cleaning pass of `handleGenerate`: trim both fields of every row,
then keep only rows whose trimmed name and trimmed value are both non-empty
(JS truthiness of a string). -/
def cleanedTags (tags : List TagIn) : List TagIn :=
  (tags.map (fun t => TagIn.mk (strTrim t.name) (strTrim t.value))).filter
    (fun t => !decide (t.name = "") && !decide (t.value = ""))

/-- Embeds the request-building logic of `handleGenerate` from
`routes/prompt/+page.svelte`: with no usable tag it sets an error message and
returns without a request; with no selected pattern likewise; otherwise the
payload carries the cleaned tags and the selected pattern names. -/
def handleGenerate (tags : List TagIn) (selectedPatternNames : List String) :
    Except String PromptBuilderRequest :=
  let cleaned := cleanedTags tags
  if cleaned.isEmpty then
    .error "Please provide at least one tag with a name and value."
  else if selectedPatternNames.isEmpty then
    .error "Please select at least one prompt pattern."
  else
    .ok { tags := cleaned, pattern_names := selectedPatternNames }

/-! ## Prompt Composer (spec §4.2) — the core is absent from the source tree -/

/-- Modelled from the spec: a `Tag` of the missing core — "name (unique within
a request), value (free text)" (§3). -/
structure Tag where
  name : String
  value : String
deriving DecidableEq, Repr

/-- Modelled from the spec: one piece of a pattern's template text — either a
literal run of text or a placeholder slot marker.  Substitution is "textual
replacement of slot markers with tag values (no recursive substitution; a tag
value containing a slot marker is inserted literally)" (§4.2 rule 3), which a
single pass over pre-split parts realises. -/
inductive TemplatePart
  | lit (s : String)
  | slot (name : String)
deriving DecidableEq, Repr

/-- Modelled from the spec: a `PromptPattern` of the missing core — "identity
(name, unique), category, ordered sequence of placeholder slot names, template
text containing slot markers" (§3). -/
structure PromptPattern where
  name : String
  category : String
  slots : List String
  template : List TemplatePart
deriving DecidableEq, Repr

/-- Modelled from the spec: the Pattern Registry after `load` — an ordered
catalog of patterns, read-only (§4.1). -/
def Registry := List PromptPattern

/-- Modelled from the spec: registry lookup `get(name)` (§4.1). -/
def registryGet (registry : Registry) (name : String) : Option PromptPattern :=
  List.find? (fun p => p.name = name) registry

/-- Find the tag supplying a slot: tag names are unique within a request, so
lookup by name. -/
def findTag (tags : List Tag) (slotName : String) : Option Tag :=
  tags.find? (fun t => t.name = slotName)

/-- Render one template part against the supplied tags (a slot whose tag is
missing never survives Composer validation; it renders empty for totality). -/
def renderPart (tags : List Tag) : TemplatePart → String
  | .lit s => s
  | .slot n => ((findTag tags n).map Tag.value).getD ""

/-- Render one pattern: substitute every part of its template, in order. -/
def renderPattern (tags : List Tag) (p : PromptPattern) : String :=
  String.join (p.template.map (renderPart tags))

/-- Modelled from the spec: the fixed separator between rendered patterns
(§4.2 rule 3). -/
def promptSeparator : String := "\n\n"

/-- A 64-bit polynomial rolling hash of a string (the "stable hash" the spec
asks of the fingerprint, §4.2 rule 5). -/
def strHash (s : String) : Nat :=
  s.foldl (fun h c => (h * 31 + c.toNat) % 2 ^ 64) 7

/-- Fold one string into a running 64-bit hash. -/
def hashCombine (h : Nat) (s : String) : Nat :=
  (h * 1000003 + strHash s) % 2 ^ 64

/-- Tags as lexicographically ordered (name, value) pairs. -/
def tagPair (t : Tag) : Lex (String × String) := toLex (t.name, t.value)

/-- The sorted (tag name, tag value) pair list entering the fingerprint. -/
def sortedTagPairs (tags : List Tag) : List (Lex (String × String)) :=
  List.insertionSort (· ≤ ·) (tags.map tagPair)

/-- Modelled from the spec: "Fingerprint = stable hash over (sorted
pattern-name list, sorted (tag name, tag value) pairs)" (§4.2 rule 5). -/
def fingerprint (patternNames : List String) (tags : List Tag) : Nat :=
  let names := List.insertionSort (· ≤ ·) patternNames
  let pairs := sortedTagPairs tags
  let h := names.foldl hashCombine 5381
  pairs.foldl
    (fun acc p => hashCombine (hashCombine acc (ofLex p).1) (ofLex p).2) h

/-- Modelled from the spec: a `ComposedPrompt` — "generated text, the ordered
list of pattern names used, the tag mapping used, a deterministic content
fingerprint" (§3). -/
structure ComposedPrompt where
  text : String
  patternNames : List String
  tags : List Tag
  fingerprint : Nat
deriving DecidableEq, Repr

/-- Modelled from the spec: Composer failures — `UnknownPatternError` and
`MissingTagError(slot)` (§4.2 rules 1–2). -/
inductive ComposeError
  | unknownPattern (name : String)
  | missingTag (slot : String)
deriving DecidableEq, Repr

/-- Resolve every selected pattern name in the Registry, in caller order;
an unresolved name fails with `UnknownPatternError` (§4.2 rule 1). -/
def resolvePatterns (registry : Registry) :
    List String → Except ComposeError (List PromptPattern)
  | [] => .ok []
  | n :: rest =>
    match registryGet registry n with
    | none => .error (.unknownPattern n)
    | some p => (resolvePatterns registry rest).map (fun ps => p :: ps)

/-- Modelled from the spec: `compose(patterns, tags)` of the missing core
(§4.2).  Every pattern name must resolve; every slot required by a selected
pattern must have a matching tag; patterns render in caller order joined by
the fixed separator; unused tags do not enter the output; the fingerprint is
over the sorted names and sorted pairs. -/
def compose (registry : Registry) (patternNames : List String)
    (tags : List Tag) : Except ComposeError ComposedPrompt :=
  match resolvePatterns registry patternNames with
  | .error e => .error e
  | .ok ps =>
    match (ps.flatMap PromptPattern.slots).find?
        (fun s => (findTag tags s).isNone) with
    | some s => .error (.missingTag s)
    | none =>
      .ok { text :=
              String.intercalate promptSeparator (ps.map (renderPattern tags))
            patternNames := patternNames
            tags := tags
            fingerprint := fingerprint patternNames tags }

/-! ## Composer determinism (C1) -/

/-- Sorting with a total antisymmetric order maps permuted lists to the same
sorted list. -/
theorem insertionSort_eq_of_perm {α : Type*} (r : α → α → Prop) [DecidableRel r]
    [IsTotal α r] [IsTrans α r] [IsAntisymm α r] {l1 l2 : List α}
    (h : l1.Perm l2) : List.insertionSort r l1 = List.insertionSort r l2 :=
  List.eq_of_perm_of_sorted
    ((List.perm_insertionSort r l1).trans
      (h.trans (List.perm_insertionSort r l2).symm))
    (List.sorted_insertionSort r l1) (List.sorted_insertionSort r l2)

/-- The sorted (name, value) pair list is invariant under tag supply order. -/
theorem sortedTagPairs_perm {l1 l2 : List Tag} (h : l1.Perm l2) :
    sortedTagPairs l1 = sortedTagPairs l2 :=
  insertionSort_eq_of_perm _ (h.map tagPair)

/-- The fingerprint does not depend on the tag supply order. -/
theorem fingerprint_perm (names : List String) {l1 l2 : List Tag}
    (h : l1.Perm l2) : fingerprint names l1 = fingerprint names l2 := by
  unfold fingerprint
  rw [sortedTagPairs_perm h]

/-- With unique tag names, tag lookup is invariant under supply order. -/
theorem findTag_perm : ∀ {l1 l2 : List Tag}, l1.Perm l2 →
    (l1.map Tag.name).Nodup → ∀ s, findTag l1 s = findTag l2 s := by
  intro l1 l2 h
  induction h with
  | nil => intro _ s; rfl
  | cons x h ih =>
    intro hnd s
    rw [List.map_cons] at hnd
    unfold findTag
    by_cases hx : x.name = s
    · rw [List.find?_cons_of_pos _ (by simp [hx]),
        List.find?_cons_of_pos _ (by simp [hx])]
    · rw [List.find?_cons_of_neg _ (by simp [hx]),
        List.find?_cons_of_neg _ (by simp [hx])]
      exact ih hnd.of_cons s
  | swap x y l =>
    intro hnd s
    rw [List.map_cons, List.map_cons] at hnd
    have hmem := (List.nodup_cons.mp hnd).1
    have hxy : y.name ≠ x.name := fun he => hmem (by simp [he])
    unfold findTag
    by_cases hy : y.name = s <;> by_cases hx : x.name = s
    · exact absurd (hy.trans hx.symm) hxy
    · rw [List.find?_cons_of_pos _ (by simp [hy]),
        List.find?_cons_of_neg _ (by simp [hx]),
        List.find?_cons_of_pos _ (by simp [hy])]
    · rw [List.find?_cons_of_neg _ (by simp [hy]),
        List.find?_cons_of_pos _ (by simp [hx]),
        List.find?_cons_of_pos _ (by simp [hx])]
    · rw [List.find?_cons_of_neg _ (by simp [hy]),
        List.find?_cons_of_neg _ (by simp [hx]),
        List.find?_cons_of_neg _ (by simp [hx]),
        List.find?_cons_of_neg _ (by simp [hy])]
  | trans h1 h2 ih1 ih2 =>
    intro hnd s
    have hnd2 := (h1.map Tag.name).nodup hnd
    exact (ih1 hnd s).trans (ih2 hnd2 s)

/-- Rendering a pattern only consults tag lookup, so it is invariant whenever
lookup is. -/
theorem renderPattern_congr {l1 l2 : List Tag}
    (hf : ∀ s, findTag l1 s = findTag l2 s) (p : PromptPattern) :
    renderPattern l1 p = renderPattern l2 p := by
  unfold renderPattern
  congr 1
  apply List.map_congr_left
  intro part _
  cases part with
  | lit s => rfl
  | slot n => simp [renderPart, hf n]

/-- C1: for every valid input, two `compose` calls with the same pattern order
and the same tag set (supplied in any order, tag names being unique within a
request) yield identical rendered text and an identical fingerprint. -/
theorem compose_deterministic (registry : Registry)
    (patternNames : List String) {tags1 tags2 : List Tag}
    (hperm : tags1.Perm tags2) (hnd : (tags1.map Tag.name).Nodup) :
    (compose registry patternNames tags1).map (fun p => (p.text, p.fingerprint))
      = (compose registry patternNames tags2).map
          (fun p => (p.text, p.fingerprint)) := by
  have hf : ∀ s, findTag tags1 s = findTag tags2 s := findTag_perm hperm hnd
  cases hres : resolvePatterns registry patternNames with
  | error e => simp [compose, hres]
  | ok ps =>
    have hfind :
        (ps.flatMap PromptPattern.slots).find?
            (fun s => (findTag tags1 s).isNone)
          = (ps.flatMap PromptPattern.slots).find?
              (fun s => (findTag tags2 s).isNone) := by
      congr 1
      funext s
      rw [hf s]
    cases hfind2 : (ps.flatMap PromptPattern.slots).find?
        (fun s => (findTag tags2 s).isNone) with
    | some s => simp [compose, hres, hfind, hfind2]
    | none =>
      have htext : ps.map (renderPattern tags1) = ps.map (renderPattern tags2) :=
        List.map_congr_left (fun p _ => renderPattern_congr hf p)
      simp [compose, hres, hfind, hfind2, htext,
        fingerprint_perm patternNames hperm, Except.map]

/-- A one-pattern registry used to exercise the Composer theorems. -/
def wRegistry : Registry :=
  [{ name := "Template Pattern"
     category := "structuring"
     slots := ["topic"]
     template := [.lit "Explain ", .slot "topic", .lit " clearly."] }]

/-- Two supply orders of the same tag set. -/
def wTags1 : List Tag := [⟨"topic", "graph theory"⟩, ⟨"audience", "students"⟩]

/-- The reversed supply order of `wTags1`. -/
def wTags2 : List Tag := [⟨"audience", "students"⟩, ⟨"topic", "graph theory"⟩]

/-- Witness for C1 at a concrete registry, pattern list and tag pair. -/
theorem compose_deterministic_witness :
    (compose wRegistry ["Template Pattern"] wTags1).map
        (fun p => (p.text, p.fingerprint))
      = (compose wRegistry ["Template Pattern"] wTags2).map
          (fun p => (p.text, p.fingerprint)) :=
  compose_deterministic wRegistry ["Template Pattern"]
    (by decide) (by decide)

/-! ## Quality Scorer (spec §4.3) — the core is absent from the source tree -/

/-- Modelled from the spec: one heuristic finding — "rule id + pass/fail +
weight" (§3, `ScoreResult`). -/
structure Finding where
  ruleId : String
  passed : Bool
  weight : ℚ
deriving DecidableEq, Repr

/-- Modelled from the spec: a `ScoreResult` — numeric score in [0,1], accepted
flag, list of heuristic findings (§3). -/
structure ScoreResult where
  score : ℚ
  accepted : Bool
  findings : List Finding
deriving DecidableEq, Repr

/-- Modelled from the spec: the Scorer's configuration constants — the length
floor, the disallowed substrings, the tag-utilization bar and the acceptance
threshold (§4.3, §9 open question: these are configuration constants). -/
structure ScorerConfig where
  lengthFloor : Nat
  forbidden : List String
  utilizationBar : ℚ
  acceptanceThreshold : ℚ
deriving DecidableEq, Repr

/-- Whether `needle` occurs as a contiguous substring of `haystack`. -/
def occursIn (needle haystack : String) : Bool :=
  decide (needle.data <:+: haystack.data)

/-- Modelled from the spec: `score(prompt)` of the missing core (§4.3).  Five
weighted rules (weights sum to 1): minimum length (hard gate — score forced to
0 and accepted = false below the floor), slot-resolution completeness, pattern
diversity (≥ 2 distinct categories), forbidden content, tag utilization.
Otherwise the score is the weighted sum of passing rules and
`accepted = score ≥ acceptance_threshold`. -/
def score (cfg : ScorerConfig) (registry : Registry) (p : ComposedPrompt) :
    ScoreResult :=
  let minLenPass : Bool := decide (cfg.lengthFloor ≤ p.text.length)
  let resolved := p.patternNames.filterMap (registryGet registry)
  let requiredSlots := resolved.flatMap PromptPattern.slots
  let slotsPass : Bool := requiredSlots.all (fun s => (findTag p.tags s).isSome)
  let diversityPass : Bool :=
    decide (2 ≤ ((resolved.map PromptPattern.category).dedup).length)
  let forbiddenPass : Bool := cfg.forbidden.all (fun f => !occursIn f p.text)
  let usedCount := (p.tags.filter (fun t => requiredSlots.contains t.name)).length
  let utilPass : Bool :=
    decide (cfg.utilizationBar * (p.tags.length : ℚ) ≤ (usedCount : ℚ))
  let findings : List Finding :=
    [⟨"min_length", minLenPass, 1/5⟩,
     ⟨"slot_resolution", slotsPass, 1/5⟩,
     ⟨"pattern_diversity", diversityPass, 1/5⟩,
     ⟨"forbidden_content", forbiddenPass, 1/5⟩,
     ⟨"tag_utilization", utilPass, 1/5⟩]
  if minLenPass then
    let total := ((findings.filter Finding.passed).map Finding.weight).sum
    { score := total
      accepted := decide (cfg.acceptanceThreshold ≤ total)
      findings := findings }
  else
    { score := 0, accepted := false, findings := findings }

/-- C3: every composed prompt whose rendered text length is below the
configured length floor scores 0 and is not accepted (the hard gate). -/
theorem score_below_floor (cfg : ScorerConfig) (registry : Registry)
    (p : ComposedPrompt) (h : p.text.length < cfg.lengthFloor) :
    (score cfg registry p).score = 0
      ∧ (score cfg registry p).accepted = false := by
  have hgate : decide (cfg.lengthFloor ≤ p.text.length) = false := by
    simp [Nat.not_le.mpr h]
  unfold score
  rw [hgate]
  simp

/-- A short composed prompt used to exercise the length gate. -/
def wShortPrompt : ComposedPrompt :=
  { text := "hi", patternNames := [], tags := [], fingerprint := 0 }

/-- A scorer configuration with a length floor of 40 characters. -/
def wScorerConfig : ScorerConfig :=
  { lengthFloor := 40
    forbidden := ["<END_SYSTEM>"]
    utilizationBar := 4/5
    acceptanceThreshold := 3/5 }

/-- Witness for C3 at a concrete configuration and short prompt. -/
theorem score_below_floor_witness :
    wShortPrompt.text.length < wScorerConfig.lengthFloor
      ∧ (score wScorerConfig wRegistry wShortPrompt).score = 0
      ∧ (score wScorerConfig wRegistry wShortPrompt).accepted = false :=
  ⟨by decide, score_below_floor wScorerConfig wRegistry wShortPrompt (by decide)⟩

/-! ## Job Lifecycle Manager (spec §4.5) — the core is absent from the source tree -/

/-- Modelled from the spec: the Job states — "Created → Queued → Running →
(Completed | Failed)" (§4.5). -/
inductive JobState
  | created
  | queued
  | running
  | completed
  | failed
deriving DecidableEq, Repr

/-- Modelled from the spec: the Job transition relation of the missing
Lifecycle Manager (§4.5): Created → Queued; Queued → Running on a cache miss;
Queued → Completed directly on a cache hit; Running → Completed on success;
Running → Failed on any unrecovered error.  No other transition exists. -/
def canTransition : JobState → JobState → Bool
  | .created, .queued => true
  | .queued, .running => true
  | .queued, .completed => true
  | .running, .completed => true
  | .running, .failed => true
  | _, _ => false

/-- The terminal Job states (§4.5). -/
def isTerminal : JobState → Bool
  | .completed => true
  | .failed => true
  | _ => false

/-- C4: `Completed` and `Failed` are terminal — the transition relation admits
no step out of either, so a Job that reaches one of them never moves again. -/
theorem terminal_states_never_transition :
    ∀ s' : JobState, canTransition .completed s' = false
      ∧ canTransition .failed s' = false := by
  intro s'
  cases s' <;> exact ⟨rfl, rfl⟩

/-! ## Model Router (spec §4.4) — the core is absent from the source tree -/

/-- Modelled from the spec: the outcome of one call to the external generation
capability — success, transient failure (timeout, provider error, rate limit)
or permanent failure (authentication, malformed request) (§4.4). -/
inductive ProviderOutcome
  | ok (text : String)
  | transientErr
  | permanentErr
deriving DecidableEq, Repr

/-- Result of an attempt loop against one profile: success, an immediate
permanent failure, or retries exhausted on transient failures. -/
inductive AttemptOutcome
  | ok (text : String)
  | permanentErr
  | exhausted
deriving DecidableEq, Repr

/-- Modelled from the spec: the retry loop against one profile (§4.4 rules
1–3).  `oracle n` is the outcome of the n-th call to the provider;
`retriesLeft` counts the retries still allowed after the current call.  The
first component of the result is the number of calls made. -/
def runAttempts (oracle : Nat → ProviderOutcome) (attempt : Nat) :
    Nat → Nat × AttemptOutcome
  | 0 =>
    match oracle attempt with
    | .ok t => (1, .ok t)
    | .transientErr => (1, .exhausted)
    | .permanentErr => (1, .permanentErr)
  | retriesLeft + 1 =>
    match oracle attempt with
    | .ok t => (1, .ok t)
    | .permanentErr => (1, .permanentErr)
    | .transientErr =>
      let r := runAttempts oracle (attempt + 1) retriesLeft
      (r.1 + 1, r.2)

/-- Modelled from the spec: the Router's escalation policy knobs — the fixed
retry bound (default 2 retries), whether a same-tier secondary profile is
configured, and whether the task permits escalation to the higher tier
(§4.4 rule 2). -/
structure RouterConfig where
  retryBound : Nat
  hasSecondary : Bool
  allowEscalation : Bool
deriving DecidableEq, Repr

/-- What a dispatch did: how many calls went to the primary profile, how many
to the fallback profile, whether the fallback was a tier escalation, and the
final outcome. -/
structure DispatchResult where
  primaryCalls : Nat
  fallbackCalls : Nat
  escalated : Bool
  outcome : AttemptOutcome
deriving DecidableEq, Repr

/-- Modelled from the spec: `dispatch` of the missing Router (§4.4): the
primary profile is attempted with the configured retry bound; on exhaustion it
fails over once to the same-tier secondary if configured, else escalates to
the higher tier only if permitted, else fails permanently. -/
def dispatch (cfg : RouterConfig) (primary secondary escalation : Nat → ProviderOutcome) :
    DispatchResult :=
  let p := runAttempts primary 0 cfg.retryBound
  match p.2 with
  | .ok t => ⟨p.1, 0, false, .ok t⟩
  | .permanentErr => ⟨p.1, 0, false, .permanentErr⟩
  | .exhausted =>
    if cfg.hasSecondary then
      let s := runAttempts secondary 0 cfg.retryBound
      ⟨p.1, s.1, false, s.2⟩
    else if cfg.allowEscalation then
      let e := runAttempts escalation 0 cfg.retryBound
      ⟨p.1, e.1, true, e.2⟩
    else
      ⟨p.1, 0, false, .exhausted⟩

/-- When every call fails transiently, the attempt loop makes exactly one call
per unit of retry budget plus the initial call. -/
theorem runAttempts_all_transient (oracle : Nat → ProviderOutcome)
    (h : ∀ i, oracle i = .transientErr) :
    ∀ retriesLeft attempt,
      runAttempts oracle attempt retriesLeft = (retriesLeft + 1, .exhausted) := by
  intro retriesLeft
  induction retriesLeft with
  | zero => intro attempt; simp [runAttempts, h attempt]
  | succ n ih => intro attempt; simp [runAttempts, h attempt, ih (attempt + 1)]

/-- C5: when the primary profile fails transiently on every attempt and the
retry bound is 2, the Router makes exactly 3 calls to the primary profile
(the initial call plus 2 retries) before failing over or failing. -/
theorem dispatch_retry_bound (cfg : RouterConfig)
    (primary secondary escalation : Nat → ProviderOutcome)
    (hb : cfg.retryBound = 2) (h : ∀ i, primary i = .transientErr) :
    (dispatch cfg primary secondary escalation).primaryCalls = 3 := by
  unfold dispatch
  rw [hb, runAttempts_all_transient primary h 2 0]
  by_cases hs : cfg.hasSecondary <;> by_cases he : cfg.allowEscalation <;>
    simp [hs, he]

/-- Witness for C5: a router with retry bound 2, no secondary profile and no
escalation, against a primary that always times out. -/
theorem dispatch_retry_bound_witness :
    (dispatch ⟨2, false, false⟩ (fun _ => .transientErr)
        (fun _ => .ok "s") (fun _ => .ok "e")).primaryCalls = 3 :=
  dispatch_retry_bound ⟨2, false, false⟩ (fun _ => .transientErr)
    (fun _ => .ok "s") (fun _ => .ok "e") rfl (fun _ => rfl)

/-! ## Result Cache (spec §4.6, §5) — the core is absent from the source tree

The at-most-one-computation guarantee of `get_or_compute` is a concurrency
property.  It is embedded as an interleaving semantics: two callers for the
same key each run the serialized check-then-insert protocol of §5 (per-key
mutex / compare-and-swap insert); a schedule is the list of which caller takes
the next atomic step.  `v` is the artifact the (deterministic) compute
function produces for the key. -/

/-- Program counter of one `get_or_compute` caller: about to do the
check-then-insert, owner of the in-flight computation, waiting on another
caller's in-flight computation, or finished with an artifact. -/
inductive CallerPC
  | start
  | computing
  | waiting
  | finished (a : Nat)
deriving DecidableEq, Repr

/-- The cache slot for the key: no entry, an in-flight marker, or a committed
entry holding the artifact. -/
inductive CacheSlot
  | absent
  | inflight
  | done (a : Nat)
deriving DecidableEq, Repr

/-- Modelled from the spec: the shared state of the Result Cache for one key,
plus the two callers' program counters and a counter of how many times the
compute function has executed (§4.6, §5). -/
structure CacheState where
  slot : CacheSlot
  pcA : CallerPC
  pcB : CallerPC
  computeCount : Nat
deriving DecidableEq, Repr

/-- One atomic step of a caller.  The check-then-insert at `start` is a single
atomic action (the per-key serialization of §5): an absent slot is claimed,
an in-flight slot sends the caller to waiting, a committed entry is returned
immediately.  The owner's step runs the compute function once and commits its
artifact; a waiter polls the slot. -/
def callerStep (v : Nat) (pc : CallerPC) (slot : CacheSlot) (count : Nat) :
    CallerPC × CacheSlot × Nat :=
  match pc, slot with
  | .start, .absent => (.computing, .inflight, count)
  | .start, .inflight => (.waiting, .inflight, count)
  | .start, .done a => (.finished a, .done a, count)
  | .computing, _ => (.finished v, .done v, count + 1)
  | .waiting, .done a => (.finished a, .done a, count)
  | .waiting, s => (.waiting, s, count)
  | .finished a, s => (.finished a, s, count)

/-- Step the state by letting caller A (`true`) or caller B (`false`) act. -/
def cacheStep (v : Nat) (who : Bool) (st : CacheState) : CacheState :=
  if who then
    let r := callerStep v st.pcA st.slot st.computeCount
    { st with pcA := r.1, slot := r.2.1, computeCount := r.2.2 }
  else
    let r := callerStep v st.pcB st.slot st.computeCount
    { st with pcB := r.1, slot := r.2.1, computeCount := r.2.2 }

/-- Run a schedule of interleaved caller steps. -/
def cacheRun (v : Nat) (sched : List Bool) (st : CacheState) : CacheState :=
  sched.foldl (fun acc w => cacheStep v w acc) st

/-- Both callers poised at the check-then-insert, empty cache. -/
def cacheInit : CacheState := ⟨.absent, .start, .start, 0⟩

/-- The inductive invariant of the two-caller cache protocol. -/
def CacheInv (v : Nat) (st : CacheState) : Prop :=
  st.computeCount ≤ 1
    ∧ (st.pcA = .computing →
        st.slot = .inflight ∧ st.pcB ≠ .computing ∧ st.computeCount = 0)
    ∧ (st.pcB = .computing →
        st.slot = .inflight ∧ st.pcA ≠ .computing ∧ st.computeCount = 0)
    ∧ (st.slot = .absent → st.computeCount = 0)
    ∧ (∀ a, st.slot = .done a → a = v)
    ∧ (∀ a, st.pcA = .finished a → a = v)
    ∧ (∀ a, st.pcB = .finished a → a = v)

set_option maxHeartbeats 2000000 in
/-- Every interleaved step preserves the cache invariant. -/
theorem cacheStep_inv (v : Nat) (w : Bool) (st : CacheState)
    (h : CacheInv v st) : CacheInv v (cacheStep v w st) := by
  obtain ⟨slot, pcA, pcB, count⟩ := st
  obtain ⟨h1, h2, h3, h4, h5, h6, h7⟩ := h
  cases w <;> cases pcA <;> cases pcB <;> cases slot <;>
    simp_all [CacheInv, cacheStep, callerStep]

/-- The invariant is preserved along every schedule. -/
theorem cacheRun_inv_of (v : Nat) :
    ∀ (sched : List Bool) (st : CacheState),
      CacheInv v st → CacheInv v (cacheRun v sched st) := by
  intro sched
  induction sched with
  | nil => intro st h; exact h
  | cons w rest ih =>
    intro st h
    rw [cacheRun, List.foldl_cons]
    exact ih (cacheStep v w st) (cacheStep_inv v w st h)

/-- The invariant holds along every schedule from the initial state. -/
theorem cacheRun_inv (v : Nat) (sched : List Bool) :
    CacheInv v (cacheRun v sched cacheInit) :=
  cacheRun_inv_of v sched cacheInit (by simp [CacheInv, cacheInit])

/-- C2: under every interleaving of two concurrent `get_or_compute` callers
for the same key, the compute function executes at most once, and whenever
both callers have returned they hold the same artifact reference. -/
theorem get_or_compute_at_most_once (v : Nat) (sched : List Bool) :
    (cacheRun v sched cacheInit).computeCount ≤ 1
      ∧ ∀ a b, (cacheRun v sched cacheInit).pcA = .finished a →
          (cacheRun v sched cacheInit).pcB = .finished b → a = b := by
  obtain ⟨h1, _, _, _, _, h6, h7⟩ := cacheRun_inv v sched
  exact ⟨h1, fun a b ha hb => (h6 a ha).trans (h7 b hb).symm⟩

/-- Witness for C2: caller A claims the key and computes; caller B then
arrives, sees the committed entry and returns the same artifact without
recomputing. -/
theorem get_or_compute_at_most_once_witness :
    (cacheRun 42 [true, true, false] cacheInit).computeCount ≤ 1 ∧ (42 : Nat) = 42 :=
  ⟨(get_or_compute_at_most_once 42 [true, true, false]).1,
    (get_or_compute_at_most_once 42 [true, true, false]).2 42 42
      (by decide) (by decide)⟩

/-! ## Related-article degradation (C6) -/

/-- Modelled from the spec: the owning Job's handling of the best-effort
`search_related` capability, absent from the source tree — "failure here must
not fail the owning Job; the Job surfaces an empty related-set rather than
erroring" (§6, §7). -/
def jobRelatedArticles (searchResult : Except String (List RelatedArticle)) :
    List RelatedArticle :=
  match searchResult with
  | .ok l => l
  | .error _ => []

/-- C6: a failing related-article search never fails the owning Job or
operation.  The modelled Job surfaces the empty related set on failure, and
the frontend's `loadRelated` swallows the error, merely clearing the loading
flag: the owning operation's state is otherwise untouched and no error
propagates. -/
theorem related_failure_degrades (e : String) (st : LandingState) :
    jobRelatedArticles (.error e) = []
      ∧ loadRelated (.error e) st = { st with relatedLoading := false } :=
  ⟨rfl, rfl⟩

/-! ## Prompt-builder Job completion on rejection (C7) -/

/-- Modelled from the spec: the URL under which an accepted prompt is
registered as a reusable asset (the artifact store is an external concern;
only its reference shape matters here). -/
def persistedPromptUrl (p : ComposedPrompt) : String :=
  "/api/prompts/" ++ toString p.fingerprint

/-- Modelled from the spec: the Job Lifecycle Manager's prompt-builder
pipeline, absent from the source tree (§4.5): Composer then Scorer; on a
Composer error the Job fails; otherwise the Job completes, the prompt text is
returned for display, and only an accepted prompt is persisted — a rejected
prompt's response carries a null download reference. -/
def runPromptBuilderJob (cfg : ScorerConfig) (registry : Registry)
    (patternNames : List String) (tags : List Tag) :
    JobState × Option PromptBuilderResponse :=
  match compose registry patternNames tags with
  | .error _ => (.failed, none)
  | .ok p =>
    let r := score cfg registry p
    (.completed,
      some { prompt_text := p.text
             score := r.score
             accepted := r.accepted
             download_url :=
               if r.accepted then some (persistedPromptUrl p) else none })

/-- C7: when the composed prompt is scored with `accepted = false`, the Job
still reaches `Completed`, the prompt text is returned for display, and the
response's download reference is null. -/
theorem rejected_prompt_still_completes (cfg : ScorerConfig)
    (registry : Registry) (patternNames : List String) (tags : List Tag)
    (p : ComposedPrompt)
    (hc : compose registry patternNames tags = .ok p)
    (hs : (score cfg registry p).accepted = false) :
    (runPromptBuilderJob cfg registry patternNames tags).1 = .completed
      ∧ ((runPromptBuilderJob cfg registry patternNames tags).2.map
          PromptBuilderResponse.prompt_text) = some p.text
      ∧ ((runPromptBuilderJob cfg registry patternNames tags).2.map
          PromptBuilderResponse.download_url) = some none := by
  simp [runPromptBuilderJob, hc, hs]

/-- Tags for a concrete prompt-builder job whose output is short enough to be
rejected by the length gate. -/
def wPromptTags : List Tag := [⟨"topic", "x"⟩]

/-- The prompt `compose` produces from `wRegistry` and `wPromptTags`. -/
def wComposed : ComposedPrompt :=
  { text := "Explain x clearly."
    patternNames := ["Template Pattern"]
    tags := wPromptTags
    fingerprint := fingerprint ["Template Pattern"] wPromptTags }

/-- Witness for C7: a 18-character prompt against a 40-character floor is
rejected, yet the Job completes with a null download reference. -/
theorem rejected_prompt_still_completes_witness :
    (runPromptBuilderJob wScorerConfig wRegistry ["Template Pattern"]
        wPromptTags).1 = .completed
      ∧ ((runPromptBuilderJob wScorerConfig wRegistry ["Template Pattern"]
          wPromptTags).2.map PromptBuilderResponse.prompt_text)
        = some wComposed.text
      ∧ ((runPromptBuilderJob wScorerConfig wRegistry ["Template Pattern"]
          wPromptTags).2.map PromptBuilderResponse.download_url)
        = some none :=
  rejected_prompt_still_completes wScorerConfig wRegistry ["Template Pattern"]
    wPromptTags wComposed rfl (by decide)

/-! ## `apiPromptBuilder` error contract (C8) -/

/-- C8: `apiPromptBuilder` returns the parsed response exactly when the HTTP
response is ok; otherwise the one fetch throws once, with the server's body
text as the message, falling back to "Prompt builder failed" when the body is
empty or unreadable. -/
theorem apiPromptBuilder_error_contract (res : PromptFetchResult) :
    (res.ok = true → apiPromptBuilder res = .ok res.json)
      ∧ (∀ s, res.ok = false → res.bodyText = some s → s ≠ "" →
          apiPromptBuilder res = .error s)
      ∧ (res.ok = false → (res.bodyText = none ∨ res.bodyText = some "") →
          apiPromptBuilder res = .error promptBuilderFallbackMsg) := by
  refine ⟨?_, ?_, ?_⟩
  · intro h
    simp [apiPromptBuilder, h]
  · intro s h hb hs
    simp [apiPromptBuilder, h, hb, hs]
  · intro h hb
    rcases hb with hb | hb <;>
      simp [apiPromptBuilder, h, hb, promptBuilderFallbackMsg]

/-- A failed fetch whose body carries a server validation message. -/
def wFetchFail : PromptFetchResult :=
  { ok := false
    json := { prompt_text := "", score := 0, accepted := false,
              download_url := none }
    bodyText := some "MissingTagError: rules" }

/-- Witness for C8: the non-empty server body text becomes the thrown
message. -/
theorem apiPromptBuilder_error_contract_witness :
    apiPromptBuilder wFetchFail = .error "MissingTagError: rules" :=
  (apiPromptBuilder_error_contract wFetchFail).2.1 "MissingTagError: rules"
    rfl rfl (by decide)

/-! ## `generateForDocument` output format (C9) -/

/-- C9: the request built by `generateForDocument` carries
`output_format = outputFormat` (defaulting to "pdf" when omitted) exactly for
the `math_proof` task, and leaves it undefined for every other task. -/
theorem generateForDocument_output_format (d : Nat) (task : TaskType)
    (f : Option MathProofFormat) :
    (task = .math_proof →
        (generateForDocument d task f).output_format = some (f.getD .pdf).toStr)
      ∧ (task ≠ .math_proof →
          (generateForDocument d task f).output_format = none) := by
  constructor
  · intro h
    simp [generateForDocument, h]
  · intro h
    simp [generateForDocument, h]

/-- Witness for C9: a math-proof request with the format argument omitted
defaults to "pdf"; a short-summary request leaves the field undefined. -/
theorem generateForDocument_output_format_witness :
    (generateForDocument 7 .math_proof none).output_format = some "pdf"
      ∧ (generateForDocument 7 .short_summary (some .tex)).output_format
        = none :=
  ⟨(generateForDocument_output_format 7 .math_proof none).1 rfl,
    (generateForDocument_output_format 7 .short_summary (some .tex)).2
      (by decide)⟩

/-! ## Prompt-builder page validation (C10) -/

/-- C10: `handleGenerate` issues a request exactly when, after trimming, some
tag has a non-empty name and a non-empty value and at least one pattern is
selected; the payload carries the cleaned tags (rows with an empty trimmed
name or value silently dropped) and the selected patterns; otherwise no
request is sent and the matching error message is set. -/
theorem handleGenerate_validation (tags : List TagIn)
    (selected : List String) :
    ((∃ r, handleGenerate tags selected = .ok r) ↔
        ((∃ t ∈ tags, strTrim t.name ≠ "" ∧ strTrim t.value ≠ "") ∧
          selected ≠ []))
      ∧ (∀ r, handleGenerate tags selected = .ok r →
          r.tags = cleanedTags tags ∧ r.pattern_names = selected)
      ∧ (cleanedTags tags = [] →
          handleGenerate tags selected
            = .error "Please provide at least one tag with a name and value.")
      ∧ (cleanedTags tags ≠ [] → selected = [] →
          handleGenerate tags selected
            = .error "Please select at least one prompt pattern.") := by
  have hkey : cleanedTags tags ≠ [] ↔
      ∃ t ∈ tags, strTrim t.name ≠ "" ∧ strTrim t.value ≠ "" := by
    simp [cleanedTags, List.filter_eq_nil_iff]
  by_cases h1 : cleanedTags tags = [] <;> by_cases h2 : selected = [] <;>
    simp_all [handleGenerate, List.isEmpty_iff]

/-- Tag rows typed into the page: one row usable after trimming, one row with
an empty name that must be dropped. -/
def wUiTags : List TagIn := [⟨" topic ", " graph theory "⟩, ⟨"", "ignored"⟩]

/-- Witness for C10: the issued payload holds exactly the cleaned tags and the
selected pattern names. -/
theorem handleGenerate_validation_witness :
    (PromptBuilderRequest.mk [⟨"topic", "graph theory"⟩]
          ["Template Pattern"]).tags = cleanedTags wUiTags
      ∧ (PromptBuilderRequest.mk [⟨"topic", "graph theory"⟩]
          ["Template Pattern"]).pattern_names = ["Template Pattern"] :=
  (handleGenerate_validation wUiTags ["Template Pattern"]).2.1
    (PromptBuilderRequest.mk [⟨"topic", "graph theory"⟩] ["Template Pattern"])
    (by decide)

end Research
